import Mathlib

/-!
Shallow embedding of the model-lifecycle task orchestration module
(`sasctl/tasks.py`) and verification of its specification claims.

Python strings are modelled as lists of characters (`PStr`), mutable
environment state and remote side effects are modelled as explicit values
and action traces, and fallible code returns `Except`.
-/

namespace Sasctl

/-- Python strings, modelled as lists of characters. -/
abbrev PStr := List Char

/-- Python `str.lower()`. -/
def pyLower (s : PStr) : PStr := s.map Char.toLower

/-- The Python `in` operator on strings: substring containment. -/
def pyIn (needle : PStr) : PStr → Bool
  | [] => needle.isEmpty
  | c :: rest => needle.isPrefixOf (c :: rest) || pyIn needle rest

/-- Python `'\n'.join(xs)`. -/
def joinNL (xs : List PStr) : PStr := List.intercalate ['\n'] xs

/-- Python `s.split('==')`: leftmost, non-overlapping split on the
two-character separator. -/
def splitEqEq : PStr → List PStr
  | '=' :: '=' :: rest => [] :: splitEqEq rest
  | c :: rest =>
    match splitEqEq rest with
    | [] => [[c]]
    | part :: parts => (c :: part) :: parts
  | [] => [[]]

/-- Conversion of a digit string to a number, as Python `int(...)` does on
a string of decimal digits. -/
def digitsToNat (ds : PStr) : Nat := ds.foldl (fun acc c => acc * 10 + (c.toNat - 48)) 0

/-! ## Character-length limits enforced on model descriptors (tasks.py lines 42-51) -/

/-- Maximum description length accepted by the platform (`_DESC_MAXLEN`). -/
def DESC_MAXLEN : Nat := 1024

/-- Maximum custom-property value length (`_PROP_VALUE_MAXLEN`). -/
def PROP_VALUE_MAXLEN : Nat := 512

/-- Maximum custom-property name length (`_PROP_NAME_MAXLEN`). -/
def PROP_NAME_MAXLEN : Nat := 60

/-- A custom property: a name/value pair. -/
structure Property where
  name : PStr
  value : PStr
deriving DecidableEq

/-- Embeds `_property(k, v)`: truncates the name and value to the platform
limits.  The `str(...)` coercions are identities here because inputs are
already strings. -/
def _property (k v : PStr) : Property :=
  ⟨k.take PROP_NAME_MAXLEN, v.take PROP_VALUE_MAXLEN⟩

/-! ## `_sklearn_to_dict` (tasks.py lines 54-104) -/

/-- The fixed estimator-name and task-type mapping table of
`_sklearn_to_dict`. -/
def sklearnMappings : List (PStr × PStr) :=
  [ ("LogisticRegression".data, "Logistic regression".data),
    ("LinearRegression".data, "Linear regression".data),
    ("SVC".data, "Support vector machine".data),
    ("GradientBoostingClassifier".data, "Gradient boosting".data),
    ("GradientBoostingRegressor".data, "Gradient boosting".data),
    ("XGBClassifier".data, "Gradient boosting".data),
    ("XGBRegressor".data, "Gradient boosting".data),
    ("RandomForestClassifier".data, "Forest".data),
    ("DecisionTreeClassifier".data, "Decision tree".data),
    ("DecisionTreeRegressor".data, "Decision tree".data),
    ("classifier".data, "classification".data),
    ("regressor".data, "prediction".data) ]

/-- Python `mappings.get(key, key)`: table lookup with the key itself as
the default. -/
def mapGet (key : PStr) : PStr :=
  match sklearnMappings.find? (fun kv => kv.1 == key) with
  | some kv => kv.2
  | none => key

/-- The target-level inference rule of `_sklearn_to_dict`
(tasks.py lines 83-90). -/
def inferTargetLevel (analytic_function algorithm estimator : PStr) : Option PStr :=
  if analytic_function == "classification".data
      && pyIn "logistic".data (pyLower algorithm) then
    some ("Binary".data)
  else if analytic_function == "prediction".data
      && (pyIn "regressor".data (pyLower estimator)
          || pyIn "regression".data (pyLower algorithm)) then
    some ("Interval".data)
  else
    none

/-- The observable inputs `_sklearn_to_dict` reads from a scikit-learn
model object: the final estimator class name, the estimator type tag,
the hyperparameters and the `str(model)` rendering. -/
structure SkModel where
  estimatorClass : PStr
  estimatorType : PStr
  params : List (PStr × PStr)
  modelStr : PStr
  pyVersion : PStr
deriving DecidableEq

/-- The model descriptor produced by `_sklearn_to_dict`. -/
structure SkDict where
  description : PStr
  algorithm : PStr
  scoreCodeType : PStr
  trainCodeType : PStr
  targetLevel : Option PStr
  function : PStr
  tool : PStr
  properties : List Property
deriving DecidableEq

/-- Embeds `_sklearn_to_dict` (tasks.py lines 54-104). -/
def _sklearn_to_dict (m : SkModel) : SkDict :=
  let algorithm := mapGet m.estimatorClass
  let analytic_function := mapGet m.estimatorType
  { description := m.modelStr.take DESC_MAXLEN
    algorithm := algorithm
    scoreCodeType := "ds2MultiType".data
    trainCodeType := "Python".data
    targetLevel := inferTargetLevel analytic_function algorithm m.estimatorClass
    function := analytic_function
    tool := "Python ".data ++ m.pyVersion
    properties := m.params.map (fun kv => _property kv.1 kv.2) }

/-- The target-level rule of `_create_project` (tasks.py lines 148-154);
its `function` and `algorithm` arguments have already been lowercased by
the caller. -/
def projectTargetLevel (function algorithm : PStr) : Option PStr :=
  if function == "classification".data && pyIn "logistic".data algorithm then
    some ("Binary".data)
  else if function == "prediction".data && pyIn "regression".data algorithm then
    some ("Interval".data)
  else
    none

/-! ## Data model for `register_model` (tasks.py lines 271-604) -/

/-- A model variable descriptor (elements of `inputVariables` /
`outputVariables`; only the `name` field is consulted by this module). -/
structure Variable where
  name : PStr
deriving DecidableEq

/-- A model-descriptor dictionary as assembled or consumed by
`register_model` and `_create_project`.  `none` fields model absent (or
`None`-valued) dictionary keys. -/
structure ModelDict where
  function : Option PStr := none
  algorithm : Option PStr := none
  targetLevel : Option PStr := none
  scoreCodeType : Option PStr := none
  inputVariables : Option (List Variable) := none
  outputVariables : Option (List Variable) := none
  properties : List Property := []
deriving DecidableEq

/-- File contents attached to a registered model.  Opaque blobs produced
by external collaborators (pickle bytes, statistics JSON, generated score
code) are represented by tags; literal text is carried verbatim. -/
inductive FileContent where
  | pickle
  | stats (statName : PStr)
  | text (s : PStr)
  | scoreCode (dest : PStr)
deriving DecidableEq

/-- A manifest entry: `{'name': ..., 'file': ..., 'role': ...}`. -/
structure FileEntry where
  name : PStr
  file : FileContent
  role : Option PStr := none
deriving DecidableEq

/-- Remote service calls issued by `register_model` (reads and writes). -/
inductive Action where
  | getProject (name : PStr)
  | getModel (name : PStr)
  | createProject (name : Option PStr)
  | updateProject (name : Option PStr)
  | importModelFromZip (name : PStr)
  | createModel (d : ModelDict)
  | createModelVersion (name : PStr)
  | deleteModelContents
  | addModelContent (f : FileEntry)
deriving DecidableEq

/-- Whether a remote call mutates repository state (everything except the
two lookups). -/
def Action.isMutation : Action → Bool
  | .getProject _ => false
  | .getModel _ => false
  | _ => true

/-- The errors `register_model` can raise.  `isValueError` classifies the
Python exception type. -/
inductive Err where
  | projectNotFound
  | authorizationError
  | defaultRepositoryNotFound
  | repositoryNotFound
  | modelTypeError
  | packageUnpackError
  | modelNotFound
deriving DecidableEq

/-- Which errors surface as Python `ValueError`. -/
def Err.isValueError : Err → Bool
  | .projectNotFound => true
  | .defaultRepositoryNotFound => true
  | .repositoryNotFound => true
  | .packageUnpackError => true
  | .modelNotFound => true
  | .authorizationError => false
  | .modelTypeError => false

/-- The caller-supplied `model` argument, dispatched by runtime type:
an ASTORE-holding CAS table, a scikit-learn estimator, a plain metadata
mapping, or anything else. -/
inductive ModelArg where
  | castable
  | estimator
  | mapping (d : ModelDict)
  | other
deriving DecidableEq

/-- The generated PyMAS wrapper, when `from_model_info` succeeds: the
declared input and output variables. -/
structure PyMas where
  inVars : List Variable
  outVars : List Variable
deriving DecidableEq

/-- The remote world and external collaborators `register_model` interacts
with.  `baseDict` abstracts `ModelInfo(model).to_dict()` (defined outside
this module); `pymas = none` models `from_model_info` raising `ValueError`;
`packages = none` models `installed_packages()` returning `None`;
`projectAppliesVars` models whether the repository applies the
prediction/event-probability variables at project-creation time. -/
structure Env where
  projects : List PStr
  repositories : List PStr
  defaultRepository : Option PStr
  models : List PStr
  repoAuthError : Bool
  packages : Option (List PStr)
  pymas : Option PyMas
  baseDict : ModelDict
  castableProps : ModelDict
  castableInVars : List Variable
  castableOutVars : List Variable
  projectAppliesVars : Bool

/-- The arguments of `register_model`.  `train`/`test`/`valid` record
whether the corresponding dataset argument was supplied (their tabular
contents only feed the delegated statistics routines). -/
structure RegArgs where
  model : ModelArg
  name : PStr
  project : Option PStr
  repository : Option PStr
  version : Option PStr
  files : List FileEntry
  force : Bool
  train : Bool
  test : Bool
  valid : Bool
  record_packages : Bool

/-- The value `register_model` returns. -/
inductive RegResult where
  | imported
  | created (d : ModelDict)
  | versioned (name : PStr)
deriving DecidableEq

/-- One run of `register_model`: the remote calls issued in order, whether
a score-code warning was emitted, and the outcome. -/
structure RegRun where
  trace : List Action
  warned : Bool
  result : Except Err RegResult

/-! ## `_create_project` (tasks.py lines 107-172) -/

/-- The project object returned by project creation. -/
structure Project where
  targetLevel : Option PStr
  predictionVariable : Option PStr
  eventProbabilityVariable : Option PStr
deriving DecidableEq

/-- Python `explicit or fallback`: an explicitly passed variable list is
used unless it is `None` or empty. -/
def orElseVars (explicit : Option (List Variable)) (fallback : Option (List Variable)) : List Variable :=
  match explicit with
  | some l => if l.isEmpty then fallback.getD [] else l
  | none => fallback.getD []

/-- Embeds `_create_project`: derives project properties from the model
descriptor, creates the project, and issues a follow-up update when the
repository did not apply the prediction/event-probability variables.
Returns the issued remote calls and the resulting project. -/
def _create_project (appliesVars : Bool) (projectName : Option PStr) (model : ModelDict)
    (input_vars output_vars : Option (List Variable)) : List Action × Project :=
  let function := pyLower (model.function.getD [])
  let algorithm := pyLower (model.algorithm.getD [])
  let ovs := orElseVars output_vars model.outputVariables
  let predVar : Option PStr :=
    match ovs with
    | v :: _ => if function == "prediction".data then some v.name else none
    | [] => none
  let eventVar : Option PStr :=
    match ovs with
    | v :: _ => if function == "prediction".data then none else some v.name
    | [] => none
  let _ := orElseVars input_vars model.inputVariables
  let createdPred := if appliesVars then predVar else none
  let createdEvent := if appliesVars then eventVar else none
  let needs_update := createdPred != predVar || createdEvent != eventVar
  let targetLevel :=
    match model.targetLevel with
    | some tl => some tl
    | none => projectTargetLevel function algorithm
  let tr := if needs_update then
      [Action.createProject projectName, Action.updateProject projectName]
    else
      [Action.createProject projectName]
  (tr, ⟨targetLevel, predVar, eventVar⟩)

/-! ## `register_model` helpers -/

/-- `mr.get_project(project) if project is not None else None`
(tasks.py line 379); the lookup returns the project when it exists. -/
def projectLookup (env : Env) (project : Option PStr) : Option PStr :=
  match project with
  | none => none
  | some pr => if env.projects.contains pr then some pr else none

/-- The remote read issued by the project lookup. -/
def projectLookupTrace (project : Option PStr) : List Action :=
  match project with
  | none => []
  | some pr => [Action.getProject pr]

/-- Repository resolution (tasks.py lines 388-409): use the default
repository when none was named, translate HTTP 403 into
`AuthorizationError`, and fail with `ValueError` when no repository can
be found. -/
def resolveRepo (env : Env) (repository : Option PStr) : Except Err PStr :=
  if env.repoAuthError then
    .error .authorizationError
  else
    let repo_obj := match repository with
      | none => env.defaultRepository
      | some r => if env.repositories.contains r then some r else none
    match repo_obj, repository with
    | none, none => .error .defaultRepositoryNotFound
    | none, some _ => .error .repositoryNotFound
    | some r, _ => .ok r

/-- The statistics files computed when any of train/test/valid is supplied
(tasks.py lines 483-487); iteration order is significant because the loop
variable shadows the caller-supplied model name. -/
def statNames : List PStr :=
  ["dmcas_lift.json".data, "dmcas_fitstat.json".data, "dmcas_roc.json".data]

/-- One iteration of the statistics loop: append the statistics file
unless a file of that name was already supplied. -/
def addStat (fs : List FileEntry) (statName : PStr) : List FileEntry :=
  if fs.any (fun f => f.name == statName) then fs
  else fs ++ [⟨statName, .stats statName, none⟩]

/-- The statistics loop over `(files, name)`: each iteration may append a
file and always rebinds the loop variable `name`. -/
def statsFold (x : List FileEntry × PStr) : List FileEntry × PStr :=
  statNames.foldl (fun acc s => (addStat acc.1 s, s)) x

/-- The per-package custom property generated by the package-recording
block, when the package string splits into exactly name and version. -/
def envPropOf (p : PStr) : Option Property :=
  if pyIn "==".data p then
    match splitEqEq p with
    | [n, v] => some (_property ("env_".data ++ n) v)
    | _ => none
  else
    none

/-- The package loop of tasks.py lines 511-514: packages containing `==`
are split into name/version custom properties; a split that does not
unpack into exactly two parts raises `ValueError`. -/
def collectEnvProps : List PStr → Except Err (List Property)
  | [] => .ok []
  | p :: rest =>
    if pyIn "==".data p then
      match splitEqEq p with
      | [n, v] =>
        match collectEnvProps rest with
        | .ok ps => .ok (_property ("env_".data ++ n) v :: ps)
        | .error e => .error e
      | _ => .error .packageUnpackError
    else
      collectEnvProps rest

/-- The package-recording block (tasks.py lines 500-517): build the
custom properties and append the `requirements.txt` manifest, whose
contents are the *unfiltered* newline-joined package list. -/
def applyPackages (d : ModelDict) (files : List FileEntry) (pkgs : List PStr) :
    Except Err (ModelDict × List FileEntry) :=
  match collectEnvProps pkgs with
  | .error e => .error e
  | .ok ps =>
    .ok ({ d with properties := d.properties ++ ps },
         files ++ [⟨"requirements.txt".data, .text (joinNL pkgs), none⟩])

/-- The three generated score-code files appended when PyMAS generation
succeeds (tasks.py lines 527-547). -/
def scoreFileEntries : List FileEntry :=
  [⟨"dmcas_packagescorecode.sas".data, .scoreCode ("MAS".data), some ("Score Code".data)⟩,
   ⟨"dmcas_epscorecode.sas".data, .scoreCode ("CAS".data), some ("score".data)⟩,
   ⟨"python_wrapper.py".data, .scoreCode ("Python".data), none⟩]

/-- The names of the three generated score-code files. -/
def scoreNames : List PStr :=
  ["dmcas_packagescorecode.sas".data, "dmcas_epscorecode.sas".data, "python_wrapper.py".data]

/-- The pickled-model manifest entry appended for estimator models
(tasks.py line 460). -/
def pklEntry : FileEntry :=
  ⟨"model.pkl".data, .pickle, some ("Python Pickle".data)⟩

/-- The guard around the package-recording block (tasks.py lines
500-517): record packages only when requested, when the caller supplied
no `requirements.txt`, and when the inventory probe returned a list. -/
def packageStep (env : Env) (record_packages : Bool) (d0 : ModelDict)
    (files2 : List FileEntry) : Except Err (ModelDict × List FileEntry) :=
  if record_packages && !(files2.any (fun f => f.name == "requirements.txt".data)) then
    match env.packages with
    | none => .ok (d0, files2)
    | some pkgs => applyPackages d0 files2 pkgs
  else
    .ok (d0, files2)

/-- The estimator and plain-mapping preparation phase of `register_model`
(tasks.py lines 450-571): assembles the model dictionary, the (possibly
shadowed) model name, the file manifest, and whether the score-code
warning was emitted.  Purely local: no remote calls are issued. -/
def prepareModel (env : Env) (a : RegArgs) : Except Err (ModelDict × PStr × List FileEntry × Bool) :=
  match a.model with
  | .mapping d => .ok (d, a.name, a.files, false)
  | .estimator =>
    let files1 := a.files ++ [pklEntry]
    let d0 := { env.baseDict with scoreCodeType := some ("ds2MultiType".data) }
    let anyData := a.train || a.test || a.valid
    let fn := if anyData then statsFold (files1, a.name) else (files1, a.name)
    let files2 := fn.1
    let nm := fn.2
    match packageStep env a.record_packages d0 files2 with
    | .error e => .error e
    | .ok (d1, files3) =>
      match env.pymas with
      | some pm =>
        .ok ({ d1 with inputVariables := some pm.inVars, outputVariables := some pm.outVars },
             nm, files3 ++ scoreFileEntries, false)
      | none => .ok (d1, nm, files3, true)
  | .castable => .error .modelTypeError
  | .other => .error .modelTypeError

/-- The post-dispatch phase of `register_model` (tasks.py lines 573-604):
optional project creation, the version branch (model lookup, version
creation and content deletion versus model creation), and the upload of
every manifest entry. -/
def finish (env : Env) (a : RegArgs) (version : PStr) (create_project : Bool)
    (d : ModelDict) (nm : PStr) (files : List FileEntry) :
    List Action × Except Err RegResult :=
  let cpTr := if create_project then
      (_create_project env.projectAppliesVars a.project d none none).1
    else []
  if !(pyLower version == "new".data) then
    if env.models.contains nm then
      (cpTr ++ [Action.getModel nm, Action.createModelVersion nm, Action.deleteModelContents]
            ++ files.map Action.addModelContent,
       .ok (.versioned nm))
    else
      (cpTr ++ [Action.getModel nm], .error .modelNotFound)
  else
    (cpTr ++ [Action.createModel d] ++ files.map Action.addModelContent,
     .ok (.created d))

/-- `version = version or 'new'` (tasks.py line 374): `None` and the empty
string are falsy. -/
def effectiveVersion (version : Option PStr) : PStr :=
  match version with
  | none => "new".data
  | some v => if v.isEmpty then "new".data else v

/-- Embeds `register_model` (tasks.py lines 271-604).  Returns the ordered
remote-call trace, the score-code warning flag, and the outcome. -/
def register_model (env : Env) (a : RegArgs) : RegRun :=
  let version : PStr := effectiveVersion a.version
  let tr0 := projectLookupTrace a.project
  let p := projectLookup env a.project
  let create_project := p.isNone && a.force
  if p.isNone && !create_project then
    ⟨tr0, false, .error .projectNotFound⟩
  else
    match resolveRepo env a.repository with
    | .error e => ⟨tr0, false, .error e⟩
    | .ok _ =>
      match a.model with
      | .castable =>
        let cpTr := if create_project then
            (_create_project env.projectAppliesVars a.project env.castableProps
              (some env.castableInVars) (some env.castableOutVars)).1
          else []
        ⟨tr0 ++ cpTr ++ [Action.importModelFromZip a.name], false, .ok .imported⟩
      | .other => ⟨tr0, false, .error .modelTypeError⟩
      | _ =>
        match prepareModel env a with
        | .error e => ⟨tr0, false, .error e⟩
        | .ok (d, nm, fs, w) =>
          let fin := finish env a version create_project d nm fs
          ⟨tr0 ++ fin.1, w, fin.2⟩

/-! ## `publish_model` (tasks.py lines 607-724) -/

/-- A publish job as observed after polling: terminal state, destination
type, requested module name, and the publishing log text. -/
structure PubJob where
  state : PStr
  destType : PStr
  publishName : PStr
  log : PStr
deriving DecidableEq

/-- Remote calls issued by `publish_model`. -/
inductive PubAction where
  | submitRequest
  | deleteModule (name : PStr)
  | requestLog
deriving DecidableEq, BEq

/-- Failures of `publish_model`: a failed job (`RuntimeError` carrying the
publishing log), an unrecognised terminal state, or an unparsable module
URL. -/
inductive PubErr where
  | failed (log : PStr)
  | unknownState (state : PStr)
  | moduleUrlNotFound
deriving DecidableEq

/-- The value `publish_model` returns: a direct resource link for non-MAS
destinations, or the resolved module for MAS destinations. -/
inductive PubResult where
  | selfLink
  | module (url : PStr)
deriving DecidableEq

/-- The character set Python strips from the front of the log with
`lstrip('SUCCESS===')`. -/
def successStripSet : List Char := ['S', 'U', 'C', 'E', '=']

/-- Embeds `publish_model`.  `submit b` is the job observed for the first
(`b = false`) and resubmitted (`b = true`) publishing request;
`parse` abstracts `_parse_module_url` (a wrapper over JSON and regular
expression library calls).  Returns the remote-call trace and outcome. -/
def publish_model (submit : Bool → PubJob) (replace : Bool)
    (parse : PStr → Option PStr) : List PubAction × Except PubErr PubResult :=
  let job := submit false
  let tr0 := [PubAction.submitRequest]
  if pyLower job.state == "completed".data
      && !(job.destType == "microAnalyticService".data) then
    (tr0, .ok .selfLink)
  else
    let retry := pyLower job.state == "failed".data && replace
        && job.destType == "microAnalyticService".data
    let tr1 := if retry then
        tr0 ++ [PubAction.deleteModule job.publishName, PubAction.submitRequest]
      else tr0
    let job1 := if retry then submit true else job
    if pyLower job1.state == "failed".data then
      (tr1 ++ [PubAction.requestLog], .error (.failed job1.log))
    else if !(pyLower job1.state == "completed".data) then
      (tr1, .error (.unknownState (pyLower job1.state)))
    else
      let msg := job1.log.dropWhile (fun c => successStripSet.contains c)
      match parse msg with
      | none => (tr1 ++ [PubAction.requestLog], .error .moduleUrlNotFound)
      | some url => (tr1 ++ [PubAction.requestLog], .ok (.module url))

/-! ## `update_model_performance` (tasks.py lines 727-906) -/

/-- The model object resolved by `mr.get_model`. -/
structure PerfModel where
  id : PStr
deriving DecidableEq

/-- The project owning the monitored model, with the fields the
precondition chain reads.  `none` models an absent (or empty) field. -/
structure PerfProject where
  id : PStr
  function : Option PStr
  targetLevel : Option PStr
  predictionVariable : Option PStr
  eventProbabilityVariable : Option PStr
deriving DecidableEq

/-- A remote performance definition. -/
structure PerfDef where
  projectId : PStr
  dataPref : PStr
  inputVariables : List PStr
  outputVariables : List PStr
  scoreExecutionRequired : Bool
deriving DecidableEq

/-- The distinct `ValueError`s of the precondition chain, plus the
in-session upload failure (which propagates as a raised exception). -/
inductive PerfErr where
  | modelNotFound
  | badFunction
  | badTargetLevel
  | noPredictionVariable
  | noEventProbabilityVariable
  | noPerfDef
  | missingInputColumns (cols : List PStr)
  | missingOutputColumns (cols : List PStr)
  | uploadFailed
deriving DecidableEq

/-- The world `update_model_performance` runs in: the resolved model and
project, the remote performance definitions, the columns of the supplied
data set, the table names already present in the target storage area
(`none` when the caslib holds no tables), the primary session's
certificate-verification flag, the `SSLREQCERT` environment variable, and
whether the in-session upload raises. -/
structure PerfEnv where
  model : Option PerfModel
  project : PerfProject
  perfDefs : List PerfDef
  dataColumns : List PStr
  allTables : Option (List PStr)
  verify : Bool
  sslreqcert : Option PStr
  uploadRaises : Bool

/-- Outcome of one `update_model_performance` call: the final value of the
`SSLREQCERT` environment variable, the result (the uploaded table name on
success), and whether the performance definition was executed. -/
structure PerfOutcome where
  sslreqcert : Option PStr
  result : Except PerfErr PStr
  executed : Bool

/-- Literal match of `pat` at the head of `s` (both already lowercased). -/
def dropLiteral : PStr → PStr → Option PStr
  | [], s => some s
  | _ :: _, [] => none
  | p :: ps, c :: cs => if p = c then dropLiteral ps cs else none

/-- Attempted match of the table-name pattern
`prefix_(digits)_.*_modelId` at the current position: the literal prefix
and underscore, a maximal nonempty digit run (the greedy `(\d+)`), a
literal underscore, then `_modelId` occurring anywhere in the remainder
(the unanchored `.*_modelId`).  `pre` is `lower(prefix) ++ "_"` and `mid`
is `"_" ++ lower(modelId)`. -/
def matchHere (pre mid s : PStr) : Option Nat :=
  match dropLiteral pre s with
  | none => none
  | some rest =>
    let ds := rest.takeWhile Char.isDigit
    let rest2 := rest.dropWhile Char.isDigit
    if ds.isEmpty then none
    else
      match rest2 with
      | '_' :: rest3 => if pyIn mid rest3 then some (digitsToNat ds) else none
      | _ => none

/-- `re.search` semantics: the leftmost position where the pattern
matches, yielding its captured sequence number. -/
def searchSeq (pre mid : PStr) : PStr → Option Nat
  | [] => none
  | c :: cs =>
    match matchHere pre mid (c :: cs) with
    | some n => some n
    | none => searchSeq pre mid cs

/-- The sequence number extracted from one table name by the per-model
regular expression `r'{prefix}_(\d+)_.*_{model_id}'` with
`re.IGNORECASE` (tasks.py lines 850, 873-875). -/
def extractSeq (pref modelId name : PStr) : Option Nat :=
  searchSeq (pyLower pref ++ "_".data) ("_".data ++ pyLower modelId) (pyLower name)

/-- The next performance-table sequence number (tasks.py lines 870-881):
one plus the maximum extracted sequence number, or 1 when the storage
area has no tables or no table name matches. -/
def nextSeq (pref modelId : PStr) (allTables : Option (List PStr)) : Nat :=
  match allTables with
  | none => 1
  | some names =>
    let seqs := names.filterMap (extractSeq pref modelId)
    match seqs with
    | [] => 1
    | _ => seqs.foldl Nat.max 0 + 1

/-- The generated performance-table name
`'{prefix}_{sequence}_{label}_{model}'`. -/
def perfTableName (pref : PStr) (seq : Nat) (label modelId : PStr) : PStr :=
  pref ++ "_".data ++ (toString seq).data ++ "_".data ++ label ++ "_".data ++ modelId

/-- Embeds `update_model_performance` (tasks.py lines 727-906).  The
`SSLREQCERT` environment variable is saved, overridden with `'no'` when
the primary session is not verifying certificates, and written back only
when the saved value was set and the CAS session block completed without
raising. -/
def update_model_performance (env : PerfEnv) (label : PStr) (refresh : Option Bool) :
    PerfOutcome :=
  let refresh := refresh.getD true
  match env.model with
  | none => ⟨env.sslreqcert, .error .modelNotFound, false⟩
  | some m =>
    let proj := env.project
    if !(pyLower (proj.function.getD []) == "prediction".data
         || pyLower (proj.function.getD []) == "classification".data) then
      ⟨env.sslreqcert, .error .badFunction, false⟩
    else if !(pyLower (proj.targetLevel.getD []) == "interval".data
         || pyLower (proj.targetLevel.getD []) == "binary".data) then
      ⟨env.sslreqcert, .error .badTargetLevel, false⟩
    else if (proj.predictionVariable.getD []).isEmpty
        && pyLower (proj.function.getD []) == "prediction".data then
      ⟨env.sslreqcert, .error .noPredictionVariable, false⟩
    else if (proj.eventProbabilityVariable.getD []).isEmpty
        && pyLower (proj.function.getD []) == "classification".data then
      ⟨env.sslreqcert, .error .noEventProbabilityVariable, false⟩
    else
      match env.perfDefs.find? (fun p => pyIn proj.id p.projectId) with
      | none => ⟨env.sslreqcert, .error .noPerfDef, false⟩
      | some pd =>
        let missingIn := pd.inputVariables.filter (fun col => !env.dataColumns.contains col)
        if !missingIn.isEmpty then
          ⟨env.sslreqcert, .error (.missingInputColumns missingIn), false⟩
        else
          let missingOut :=
            if !pd.scoreExecutionRequired then
              pd.outputVariables.filter (fun col => !env.dataColumns.contains col)
            else []
          if !missingOut.isEmpty then
            ⟨env.sslreqcert, .error (.missingOutputColumns missingOut), false⟩
          else
            let orig := env.sslreqcert
            let overridden := if !env.verify then some ("no".data) else orig
            let seq := nextSeq pd.dataPref m.id env.allTables
            let tname := perfTableName pd.dataPref seq label m.id
            if env.uploadRaises then
              ⟨overridden, .error .uploadFailed, false⟩
            else
              let restored := match orig with
                | some v => some v
                | none => overridden
              ⟨restored, .ok tname, refresh⟩

/-! ## Concrete scenarios used to instantiate the claims -/

/-- A monitored project passing every precondition of
`update_model_performance`. -/
def perfProjectOk : PerfProject :=
  ⟨"p1".data, some ("classification".data), some ("binary".data),
   none, some ("P_Y".data)⟩

/-- A performance definition for `perfProjectOk`. -/
def perfDefOk : PerfDef := ⟨"p1".data, "PREFIX".data, [], [], true⟩

/-- An unverified session with `SSLREQCERT` initially unset and a clean
upload. -/
def perfEnvUnsetSsl : PerfEnv :=
  { model := some ⟨"model1".data⟩, project := perfProjectOk, perfDefs := [perfDefOk],
    dataColumns := [], allTables := none, verify := false,
    sslreqcert := none, uploadRaises := false }

/-- An unverified session with `SSLREQCERT` initially `yes` whose upload
raises. -/
def perfEnvRaise : PerfEnv :=
  { model := some ⟨"model1".data⟩, project := perfProjectOk, perfDefs := [perfDefOk],
    dataColumns := [], allTables := some [], verify := false,
    sslreqcert := some ("yes".data), uploadRaises := true }

/-- A verified session whose target storage area already holds two
performance tables for the model, with sequence numbers 3 and 7. -/
def perfEnvSeq : PerfEnv :=
  { model := some ⟨"model1".data⟩, project := perfProjectOk, perfDefs := [perfDefOk],
    dataColumns := [],
    allTables := some ["PREFIX_3_Q1_model1".data, "PREFIX_7_Q2_model1".data],
    verify := true, sslreqcert := none, uploadRaises := false }

/-- A pair of failed MAS publish jobs (first submission and resubmission). -/
def pubSubmitFailed : Bool → PubJob :=
  fun b =>
    if b then ⟨"failed".data, "microAnalyticService".data, "mod1".data, "log2".data⟩
    else ⟨"failed".data, "microAnalyticService".data, "mod1".data, "log1".data⟩

/-- A world with one project, a default repository, no registered models,
one installed package lacking a version separator, and failing score-code
generation. -/
def envC2 : Env :=
  { projects := ["proj".data], repositories := [], defaultRepository := some ("Public".data),
    models := [], repoAuthError := false, packages := some ["foo".data], pymas := none,
    baseDict := {}, castableProps := {}, castableInVars := [], castableOutVars := [],
    projectAppliesVars := true }

/-- Registration of an estimator model with package recording on. -/
def argsC2 : RegArgs :=
  { model := .estimator, name := "m".data, project := some ("proj".data),
    repository := none, version := none, files := [], force := false,
    train := false, test := false, valid := false, record_packages := true }

/-- A world with no projects and no models. -/
def envC3 : Env :=
  { projects := [], repositories := [], defaultRepository := some ("Public".data),
    models := [], repoAuthError := false, packages := none, pymas := none,
    baseDict := {}, castableProps := {}, castableInVars := [], castableOutVars := [],
    projectAppliesVars := true }

/-- Registration of a plain metadata mapping under a nonexistent model
name, with `version='latest'` and `force=True` against a nonexistent
project. -/
def argsC3 : RegArgs :=
  { model := .mapping {}, name := "mymodel".data, project := some ("proj".data),
    repository := none, version := some ("latest".data), files := [], force := true,
    train := false, test := false, valid := false, record_packages := true }

/-- Registration with `force=False` against a nonexistent project. -/
def argsC8 : RegArgs :=
  { model := .mapping {}, name := "mymodel".data, project := some ("proj".data),
    repository := none, version := none, files := [], force := false,
    train := false, test := false, valid := false, record_packages := true }

/-- A world with one project, a default repository, no packages and
failing score-code generation. -/
def envC9 : Env :=
  { projects := ["proj".data], repositories := [], defaultRepository := some ("Public".data),
    models := [], repoAuthError := false, packages := none, pymas := none,
    baseDict := {}, castableProps := {}, castableInVars := [], castableOutVars := [],
    projectAppliesVars := true }

/-- Registration of an estimator model in `envC9`. -/
def argsC9 : RegArgs :=
  { model := .estimator, name := "m".data, project := some ("proj".data),
    repository := none, version := none, files := [], force := false,
    train := false, test := false, valid := false, record_packages := true }

/-- A world like `envC9` in which a model named `dmcas_roc.json` exists. -/
def envC10 : Env :=
  { projects := ["proj".data], repositories := [], defaultRepository := some ("Public".data),
    models := ["dmcas_roc.json".data], repoAuthError := false, packages := none,
    pymas := none, baseDict := {}, castableProps := {}, castableInVars := [],
    castableOutVars := [], projectAppliesVars := true }

/-- Registration of an estimator with training data supplied and
`version='latest'`. -/
def argsC10 : RegArgs :=
  { model := .estimator, name := "mymodel".data, project := some ("proj".data),
    repository := none, version := some ("latest".data), files := [], force := false,
    train := true, test := false, valid := false, record_packages := true }

/-- The model dictionary `prepareModel` produces for an estimator over an
empty base dictionary. -/
def dEst : ModelDict := { scoreCodeType := some ("ds2MultiType".data) }

/-- The file manifest `prepareModel` produces in `envC10`. -/
def fsC10 : List FileEntry :=
  [pklEntry,
   ⟨"dmcas_lift.json".data, .stats ("dmcas_lift.json".data), none⟩,
   ⟨"dmcas_fitstat.json".data, .stats ("dmcas_fitstat.json".data), none⟩,
   ⟨"dmcas_roc.json".data, .stats ("dmcas_roc.json".data), none⟩]

/-! # Theorems -/

/-! ## Sanity checks of the string primitives -/

theorem splitEqEq_simple : splitEqEq "a==b".data = ["a".data, "b".data] := by decide

theorem splitEqEq_tripleEq : splitEqEq "a===b".data = ["a".data, "=b".data] := by decide

theorem splitEqEq_twoSeps :
    splitEqEq "a==b==c".data = ["a".data, "b".data, "c".data] := by decide

theorem extractSeq_example_three :
    extractSeq "PREFIX".data "model1".data "PREFIX_3_Q1_model1".data = some 3 := by decide

theorem extractSeq_example_seven :
    extractSeq "PREFIX".data "model1".data "PREFIX_7_Q2_model1".data = some 7 := by decide

theorem extractSeq_example_nomatch :
    extractSeq "PREFIX".data "model1".data "OTHER_5_Q1_model2".data = none := by decide

theorem sklearn_logistic_binary :
    (_sklearn_to_dict ⟨"LogisticRegression".data, "classifier".data, [],
      "LR()".data, "3.8".data⟩).targetLevel = some ("Binary".data) := by decide

theorem sklearn_xgbregressor_interval :
    (_sklearn_to_dict ⟨"XGBRegressor".data, "regressor".data, [],
      "X()".data, "3.8".data⟩).targetLevel = some ("Interval".data) := by decide

theorem sklearn_svc_none :
    (_sklearn_to_dict ⟨"SVC".data, "classifier".data, [],
      "SVC()".data, "3.8".data⟩).targetLevel = none := by decide

/-! ## Helper lemmas -/

theorem pstr_take_le (n : Nat) (l : PStr) : (l.take n).length ≤ n := by
  rw [List.length_take]
  exact Nat.min_le_left _ _

theorem inferTargetLevel_binary_iff (f alg est : PStr) :
    inferTargetLevel f alg est = some ("Binary".data) ↔
      f = "classification".data ∧ pyIn "logistic".data (pyLower alg) = true := by
  unfold inferTargetLevel
  by_cases h1 : (f == "classification".data && pyIn "logistic".data (pyLower alg)) = true
  · rw [if_pos h1]
    simp only [Bool.and_eq_true, beq_iff_eq] at h1
    simp [h1]
  · rw [if_neg h1]
    simp only [Bool.and_eq_true, beq_iff_eq] at h1
    constructor
    · intro h
      exfalso
      split at h
      · exact (by decide : ("Interval".data : PStr) ≠ "Binary".data) (Option.some.inj h)
      · exact Option.noConfusion h
    · intro h
      exact absurd h h1

theorem inferTargetLevel_interval_iff (f alg est : PStr) :
    inferTargetLevel f alg est = some ("Interval".data) ↔
      f = "prediction".data ∧ (pyIn "regressor".data (pyLower est) = true
        ∨ pyIn "regression".data (pyLower alg) = true) := by
  unfold inferTargetLevel
  by_cases h1 : (f == "classification".data && pyIn "logistic".data (pyLower alg)) = true
  · rw [if_pos h1]
    simp only [Bool.and_eq_true, beq_iff_eq] at h1
    constructor
    · intro h
      exact absurd (Option.some.inj h) (by decide)
    · intro h
      rw [h1.1] at h
      exact absurd h.1 (by decide)
  · rw [if_neg h1]
    by_cases h2 : (f == "prediction".data
        && (pyIn "regressor".data (pyLower est) || pyIn "regression".data (pyLower alg))) = true
    · rw [if_pos h2]
      simp only [Bool.and_eq_true, Bool.or_eq_true, beq_iff_eq] at h2
      simp [h2]
    · rw [if_neg h2]
      simp only [Bool.and_eq_true, Bool.or_eq_true, beq_iff_eq] at h2
      constructor
      · intro h
        exact Option.noConfusion h
      · intro h
        exact absurd h h2

theorem inferTargetLevel_values (f alg est v : PStr)
    (h : inferTargetLevel f alg est = some v) :
    v = "Binary".data ∨ v = "Interval".data := by
  unfold inferTargetLevel at h
  split at h
  · exact .inl (Option.some.inj h).symm
  · split at h
    · exact .inr (Option.some.inj h).symm
    · exact Option.noConfusion h

theorem projectTargetLevel_binary_iff (f alg : PStr) :
    projectTargetLevel f alg = some ("Binary".data) ↔
      f = "classification".data ∧ pyIn "logistic".data alg = true := by
  unfold projectTargetLevel
  by_cases h1 : (f == "classification".data && pyIn "logistic".data alg) = true
  · rw [if_pos h1]
    simp only [Bool.and_eq_true, beq_iff_eq] at h1
    simp [h1]
  · rw [if_neg h1]
    simp only [Bool.and_eq_true, beq_iff_eq] at h1
    constructor
    · intro h
      exfalso
      split at h
      · exact (by decide : ("Interval".data : PStr) ≠ "Binary".data) (Option.some.inj h)
      · exact Option.noConfusion h
    · intro h
      exact absurd h h1

theorem projectTargetLevel_interval_iff (f alg : PStr) :
    projectTargetLevel f alg = some ("Interval".data) ↔
      f = "prediction".data ∧ pyIn "regression".data alg = true := by
  unfold projectTargetLevel
  by_cases h1 : (f == "classification".data && pyIn "logistic".data alg) = true
  · rw [if_pos h1]
    simp only [Bool.and_eq_true, beq_iff_eq] at h1
    constructor
    · intro h
      exact absurd (Option.some.inj h) (by decide)
    · intro h
      rw [h1.1] at h
      exact absurd h.1 (by decide)
  · rw [if_neg h1]
    by_cases h2 : (f == "prediction".data && pyIn "regression".data alg) = true
    · rw [if_pos h2]
      simp only [Bool.and_eq_true, beq_iff_eq] at h2
      simp [h2]
    · rw [if_neg h2]
      simp only [Bool.and_eq_true, beq_iff_eq] at h2
      constructor
      · intro h
        exact Option.noConfusion h
      · intro h
        exact absurd h h2

theorem projectTargetLevel_values (f alg v : PStr)
    (h : projectTargetLevel f alg = some v) :
    v = "Binary".data ∨ v = "Interval".data := by
  unfold projectTargetLevel at h
  split at h
  · exact .inl (Option.some.inj h).symm
  · split at h
    · exact .inr (Option.some.inj h).symm
    · exact Option.noConfusion h

/-! ## Claim theorems -/

/-- C5: target-level inference is a deterministic total function of the
function and algorithm/estimator names.  In `_sklearn_to_dict`,
classification with `logistic` in the (lowercased) algorithm name yields
`Binary`; prediction with `regressor` in the estimator name or
`regression` in the algorithm name yields `Interval`; everything else
yields none, and no other value is ever produced.  The companion rule in
`_create_project` (over pre-lowercased function and algorithm) behaves
the same, with only the algorithm name available. -/
theorem C5_target_level_inference (f alg est : PStr) :
    (inferTargetLevel f alg est = some ("Binary".data) ↔
      f = "classification".data ∧ pyIn "logistic".data (pyLower alg) = true)
  ∧ (inferTargetLevel f alg est = some ("Interval".data) ↔
      f = "prediction".data ∧ (pyIn "regressor".data (pyLower est) = true
        ∨ pyIn "regression".data (pyLower alg) = true))
  ∧ (∀ v, inferTargetLevel f alg est = some v →
      v = "Binary".data ∨ v = "Interval".data)
  ∧ (projectTargetLevel f alg = some ("Binary".data) ↔
      f = "classification".data ∧ pyIn "logistic".data alg = true)
  ∧ (projectTargetLevel f alg = some ("Interval".data) ↔
      f = "prediction".data ∧ pyIn "regression".data alg = true)
  ∧ (∀ v, projectTargetLevel f alg = some v →
      v = "Binary".data ∨ v = "Interval".data) :=
  ⟨inferTargetLevel_binary_iff f alg est,
   inferTargetLevel_interval_iff f alg est,
   fun v => inferTargetLevel_values f alg est v,
   projectTargetLevel_binary_iff f alg,
   projectTargetLevel_interval_iff f alg,
   fun v => projectTargetLevel_values f alg v⟩

/-- Witness for C5 at concrete inputs: a logistic-regression classifier
infers `Binary` and a prediction project with a regression algorithm
infers `Interval`. -/
theorem C5_witness :
    inferTargetLevel ("classification".data) ("Logistic regression".data)
      ("LogisticRegression".data) = some ("Binary".data)
  ∧ projectTargetLevel ("prediction".data) ("linear regression".data) =
      some ("Interval".data) :=
  ⟨(C5_target_level_inference "classification".data "Logistic regression".data
      "LogisticRegression".data).1.mpr ⟨rfl, by decide⟩,
   (C5_target_level_inference "prediction".data "linear regression".data
      "x".data).2.2.2.2.1.mpr ⟨rfl, by decide⟩⟩

/-- C7: every custom property generated through `_property` has its name
truncated to at most 60 characters and its value to at most 512
characters, and every estimator-derived descriptor from
`_sklearn_to_dict` has its description truncated to at most 1024
characters with all its generated properties within the same bounds. -/
theorem C7_descriptor_truncation :
    (∀ k v : PStr, (_property k v).name.length ≤ 60 ∧ (_property k v).value.length ≤ 512)
  ∧ (∀ m : SkModel, (_sklearn_to_dict m).description.length ≤ 1024
      ∧ ∀ p ∈ (_sklearn_to_dict m).properties,
          p.name.length ≤ 60 ∧ p.value.length ≤ 512) := by
  refine ⟨fun k v => ⟨pstr_take_le _ _, pstr_take_le _ _⟩,
          fun m => ⟨pstr_take_le _ _, ?_⟩⟩
  intro p hp
  simp only [_sklearn_to_dict, List.mem_map] at hp
  obtain ⟨kv, _, rfl⟩ := hp
  exact ⟨pstr_take_le _ _, pstr_take_le _ _⟩

/-- Witness for C7: a concrete hyperparameter property of a concrete
estimator descriptor is within the bounds. -/
theorem C7_witness :
    _property ("C".data) ("1.0".data) ∈
      (_sklearn_to_dict ⟨"SVC".data, "classifier".data, [("C".data, "1.0".data)],
        "SVC()".data, "3.8".data⟩).properties
  ∧ (_property ("C".data) ("1.0".data)).name.length ≤ 60
  ∧ (_property ("C".data) ("1.0".data)).value.length ≤ 512 :=
  ⟨by decide,
   ((C7_descriptor_truncation.2 ⟨"SVC".data, "classifier".data,
      [("C".data, "1.0".data)], "SVC()".data, "3.8".data⟩).2
      (_property ("C".data) ("1.0".data)) (by decide)).1,
   ((C7_descriptor_truncation.2 ⟨"SVC".data, "classifier".data,
      [("C".data, "1.0".data)], "SVC()".data, "3.8".data⟩).2
      (_property ("C".data) ("1.0".data)) (by decide)).2⟩

/-- C1: the claim that `SSLREQCERT` is always restored to its exact prior
value is violated by the code: with an unverified session and the
variable initially unset, a successful run leaves it set to `no`
(the restoration is guarded by `orig is not None`), and with the variable
initially set, a raising upload skips the restoration entirely (there is
no try/finally around the CAS block). -/
theorem C1_sslreqcert_not_restored :
    perfEnvUnsetSsl.sslreqcert = none
  ∧ (update_model_performance perfEnvUnsetSsl ("Q1".data) none).sslreqcert =
      some ("no".data)
  ∧ (update_model_performance perfEnvUnsetSsl ("Q1".data) none).result =
      .ok ("PREFIX_1_Q1_model1".data)
  ∧ perfEnvRaise.sslreqcert = some ("yes".data)
  ∧ (update_model_performance perfEnvRaise ("Q1".data) none).sslreqcert =
      some ("no".data)
  ∧ (update_model_performance perfEnvRaise ("Q1".data) none).result =
      .error .uploadFailed :=
  ⟨rfl, rfl, rfl, rfl, rfl, rfl⟩

/-- C6: the next performance-table sequence number is one plus the
maximum sequence number extracted from matching table names, 1 when
nothing matches or the storage area is empty; on the spec example
(existing tables `PREFIX_3_Q1_model1` and `PREFIX_7_Q2_model1`) the next
sequence is 8 and `update_model_performance` uploads
`PREFIX_8_Q3_model1`. -/
theorem C6_sequence_numbering :
    nextSeq "PREFIX".data "model1".data
        (some ["PREFIX_3_Q1_model1".data, "PREFIX_7_Q2_model1".data]) = 8
  ∧ (∀ pref modelId : PStr, nextSeq pref modelId none = 1)
  ∧ (∀ pref modelId names, names.filterMap (extractSeq pref modelId) = [] →
      nextSeq pref modelId (some names) = 1)
  ∧ (∀ pref modelId names, names.filterMap (extractSeq pref modelId) ≠ [] →
      nextSeq pref modelId (some names) =
        (names.filterMap (extractSeq pref modelId)).foldl Nat.max 0 + 1)
  ∧ (update_model_performance perfEnvSeq ("Q3".data) none).result =
      .ok ("PREFIX_8_Q3_model1".data) := by
  refine ⟨by decide, fun _ _ => rfl, ?_, ?_, rfl⟩
  · intro pref modelId names h
    simp only [nextSeq, h]
  · intro pref modelId names h
    cases hs : names.filterMap (extractSeq pref modelId) with
    | nil => exact absurd hs h
    | cons a l => simp only [nextSeq, hs]

/-- Witness for C6: a storage area holding only an unrelated table name
yields sequence 1. -/
theorem C6_witness :
    ["OTHER_5_Q1_model2".data].filterMap (extractSeq "PREFIX".data "model1".data) = []
  ∧ nextSeq "PREFIX".data "model1".data (some ["OTHER_5_Q1_model2".data]) = 1 :=
  ⟨by decide,
   C6_sequence_numbering.2.2.1 "PREFIX".data "model1".data
     ["OTHER_5_Q1_model2".data] (by decide)⟩

/-- C4: for a publish job that fails with destination type
`microAnalyticService`: with `replace=True` the stale module is deleted
and the request resubmitted exactly once (the full trace is submit,
delete, submit, optionally the log fetch — never a third submission),
and a second failure raises the error carrying the publishing log; with
`replace=False` no deletion or resubmission occurs and the failure
propagates as the error carrying the publishing log. -/
theorem C4_publish_retry (submit : Bool → PubJob) (parse : PStr → Option PStr)
    (h1 : pyLower (submit false).state = "failed".data)
    (h2 : (submit false).destType = "microAnalyticService".data) :
    ((publish_model submit true parse).1 =
        [.submitRequest, .deleteModule (submit false).publishName, .submitRequest]
      ∨ (publish_model submit true parse).1 =
        [.submitRequest, .deleteModule (submit false).publishName, .submitRequest,
         .requestLog])
  ∧ (pyLower (submit true).state = "failed".data →
      (publish_model submit true parse).2 = .error (.failed (submit true).log))
  ∧ (publish_model submit false parse).1 = [.submitRequest, .requestLog]
  ∧ (publish_model submit false parse).2 = .error (.failed (submit false).log) := by
  have e1 : (pyLower (submit false).state == "completed".data) = false := by
    rw [h1]; decide
  have e2 : (pyLower (submit false).state == "failed".data) = true := by
    rw [h1]; decide
  have e3 : ((submit false).destType == "microAnalyticService".data) = true := by
    rw [h2]; decide
  refine ⟨?_, ?_, ?_, ?_⟩
  · by_cases hf : pyLower (submit true).state = "failed".data
    · right
      simp [publish_model, e1, e2, e3, hf]
    · by_cases hc : pyLower (submit true).state = "completed".data
      · right
        simp [publish_model, e1, e2, e3, hf, hc]
        split <;> rfl
      · left
        simp [publish_model, e1, e2, e3, hf, hc]
  · intro hf
    simp [publish_model, e1, e2, e3, hf]
  · simp [publish_model, e1, e2, e3]
  · simp [publish_model, e1, e2, e3]

/-- Witness for C4: two consecutive failed MAS publish jobs with
`replace=False`: the failure propagates with the first publishing log and
no module deletion occurs. -/
theorem C4_witness :
    pyLower (pubSubmitFailed false).state = "failed".data
  ∧ (publish_model pubSubmitFailed false (fun _ => none)).1 =
      [.submitRequest, .requestLog]
  ∧ (publish_model pubSubmitFailed false (fun _ => none)).2 =
      .error (.failed ("log1".data)) := by
  have h := C4_publish_retry pubSubmitFailed (fun _ => none) (by decide) (by decide)
  exact ⟨by decide, h.2.2.1, h.2.2.2⟩

/-- C8: registering with `force=False` against a project that does not
exist (or with `project=None`) fails with `ValueError` before any remote
mutation, in particular before any model-content upload. -/
theorem C8_missing_project (env : Env) (a : RegArgs)
    (hF : a.force = false) (hP : projectLookup env a.project = none) :
    (register_model env a).result = .error .projectNotFound
  ∧ Err.isValueError .projectNotFound = true
  ∧ (register_model env a).trace.filter Action.isMutation = [] := by
  refine ⟨?_, rfl, ?_⟩
  · simp [register_model, hP, hF]
  · have ht : (register_model env a).trace = projectLookupTrace a.project := by
      simp [register_model, hP, hF]
    rw [ht]
    cases a.project with
    | none => rfl
    | some pr => rfl

/-- Witness for C8: the concrete registration `argsC8` against `envC3`
(no projects) fails with the project-not-found `ValueError` and issues no
mutating remote call. -/
theorem C8_witness :
    projectLookup envC3 argsC8.project = none
  ∧ (register_model envC3 argsC8).result = .error .projectNotFound
  ∧ (register_model envC3 argsC8).trace.filter Action.isMutation = [] := by
  have h := C8_missing_project envC3 argsC8 rfl rfl
  exact ⟨rfl, h.1, h.2.2⟩

/-- The package loop produces exactly the filtered name/version
properties when every package with a separator splits cleanly. -/
theorem collectEnvProps_ok (pkgs : List PStr)
    (h : ∀ p ∈ pkgs, pyIn "==".data p = true → (splitEqEq p).length = 2) :
    collectEnvProps pkgs = .ok (pkgs.filterMap envPropOf) := by
  induction pkgs with
  | nil => rfl
  | cons p rest ih =>
    have ih' := ih (fun q hq => h q (List.mem_cons_of_mem p hq))
    by_cases hin : pyIn "==".data p = true
    · have hlen := h p (List.mem_cons_self p rest) hin
      match hsp : splitEqEq p with
      | [] => rw [hsp] at hlen; simp at hlen
      | [n] => rw [hsp] at hlen; simp at hlen
      | n :: v :: w :: rest' => rw [hsp] at hlen; simp at hlen
      | [n, v] =>
        simp [collectEnvProps, envPropOf, hin, hsp, ih']
    · simp [collectEnvProps, envPropOf, hin, ih']

/-- C2 (amended): a package string containing no `==` separator is
excluded from the generated custom-property list but is NOT excluded from
the requirements manifest — the `requirements.txt` file contains the
newline-join of the full, unfiltered package list.  Packages of the form
`name==version` appear in both. -/
theorem C2_package_filtering (d : ModelDict) (files : List FileEntry) (pkgs : List PStr)
    (h : ∀ p ∈ pkgs, pyIn "==".data p = true → (splitEqEq p).length = 2) :
    applyPackages d files pkgs =
      .ok ({ d with properties := d.properties ++ pkgs.filterMap envPropOf },
           files ++ [⟨"requirements.txt".data, .text (joinNL pkgs), none⟩])
  ∧ (∀ p, pyIn "==".data p = false → envPropOf p = none) := by
  constructor
  · rw [applyPackages, collectEnvProps_ok pkgs h]
  · intro p hp
    simp [envPropOf, hp]

/-- Witness for C2 (amended): with one well-formed and one separator-less
package, the property list keeps only the former while the manifest keeps
both. -/
theorem C2_witness :
    (∀ p ∈ ["numpy==1.21".data, "foo".data], pyIn "==".data p = true →
      (splitEqEq p).length = 2)
  ∧ applyPackages {} [] ["numpy==1.21".data, "foo".data] =
      .ok ({ properties := ["numpy==1.21".data, "foo".data].filterMap envPropOf },
           [⟨"requirements.txt".data,
             .text (joinNL ["numpy==1.21".data, "foo".data]), none⟩]) := by
  refine ⟨by decide, ?_⟩
  exact (C2_package_filtering {} [] ["numpy==1.21".data, "foo".data] (by decide)).1

/-- C2 (counterexample): in a full registration run with installed
package `foo` (no `==` separator), the uploaded `requirements.txt`
manifest contains `foo` verbatim — the claim that such packages are
excluded from the manifest is false. -/
theorem C2_counterexample :
    pyIn "==".data ("foo".data) = false
  ∧ Action.addModelContent ⟨"requirements.txt".data, .text ("foo".data), none⟩
      ∈ (register_model envC2 argsC2).trace
  ∧ (register_model envC2 argsC2).result = .ok (.created dEst) := by
  refine ⟨by decide, ?_, rfl⟩
  decide

/-- The statistics loop always leaves the loop variable bound to the last
statistics file name. -/
theorem statsFold_snd (x : List FileEntry × PStr) :
    (statsFold x).2 = "dmcas_roc.json".data := by
  simp [statsFold, statNames]

/-- Everything the statistics loop adds to the manifest is a statistics
file named in `statNames`. -/
theorem foldl_addStat_mem (ns : List PStr) (x : List FileEntry × PStr) (f : FileEntry)
    (h : f ∈ (ns.foldl (fun acc s => (addStat acc.1 s, s)) x).1) :
    f ∈ x.1 ∨ ∃ s, s ∈ ns ∧ f = ⟨s, .stats s, none⟩ := by
  induction ns generalizing x with
  | nil => exact .inl h
  | cons s ns ih =>
    rw [List.foldl_cons] at h
    rcases ih (addStat x.1 s, s) h with h' | ⟨t, ht, rfl⟩
    · unfold addStat at h'
      split at h'
      · exact .inl h'
      · rcases List.mem_append.mp h' with h'' | h''
        · exact .inl h''
        · have he : f = ⟨s, .stats s, none⟩ := by simpa using h''
          exact .inr ⟨s, List.mem_cons_self s ns, he⟩
    · exact .inr ⟨t, List.mem_cons_of_mem s ht, rfl⟩

/-- The name component returned by `prepareModel` for an estimator is the
one left behind by the statistics loop. -/
theorem prepareModel_estimator_nm (env : Env) (a : RegArgs) (d : ModelDict) (nm : PStr)
    (fs : List FileEntry) (w : Bool) (hm : a.model = .estimator)
    (hprep : prepareModel env a = .ok (d, nm, fs, w)) :
    nm = (if a.train || a.test || a.valid then statsFold (a.files ++ [pklEntry], a.name)
          else (a.files ++ [pklEntry], a.name)).2 := by
  simp only [prepareModel, hm] at hprep
  split at hprep
  · exact Except.noConfusion hprep
  · split at hprep
    · simp only [Except.ok.injEq, Prod.mk.injEq] at hprep
      exact hprep.2.1.symm
    · simp only [Except.ok.injEq, Prod.mk.injEq] at hprep
      exact hprep.2.1.symm

/-- The name `prepareModel` hands to the version branch is either the
caller-supplied name or the shadowing statistics file name. -/
theorem prepareModel_name_cases (env : Env) (a : RegArgs) (d : ModelDict) (nm : PStr)
    (fs : List FileEntry) (w : Bool)
    (hprep : prepareModel env a = .ok (d, nm, fs, w)) :
    nm = a.name ∨ nm = "dmcas_roc.json".data := by
  cases hM : a.model with
  | castable => simp [prepareModel, hM] at hprep
  | other => simp [prepareModel, hM] at hprep
  | mapping dd =>
    simp only [prepareModel, hM, Except.ok.injEq, Prod.mk.injEq] at hprep
    exact .inl hprep.2.1.symm
  | estimator =>
    have hnm := prepareModel_estimator_nm env a d nm fs w hM hprep
    by_cases hd : (a.train || a.test || a.valid) = true
    · rw [hd] at hnm
      simp only [if_true] at hnm
      exact .inr (hnm.trans (statsFold_snd _))
    · have hd' : (a.train || a.test || a.valid) = false := by
        revert hd; cases (a.train || a.test || a.valid) <;> simp
      rw [hd'] at hnm
      simp only [Bool.false_eq_true, if_false] at hnm
      exact .inl hnm

/-- With training data supplied, the statistics loop shadows the name
with `dmcas_roc.json`. -/
theorem prepareModel_roc_name (env : Env) (a : RegArgs) (d : ModelDict) (nm : PStr)
    (fs : List FileEntry) (w : Bool) (hm : a.model = .estimator)
    (hdata : (a.train || a.test || a.valid) = true)
    (hprep : prepareModel env a = .ok (d, nm, fs, w)) :
    nm = "dmcas_roc.json".data := by
  have hnm := prepareModel_estimator_nm env a d nm fs w hm hprep
  rw [hdata] at hnm
  simp only [if_true] at hnm
  exact hnm.trans (statsFold_snd _)

/-- `prepareModel` on an estimator with no installed-package inventory and
failing score-code generation: the dictionary is the base dictionary with
only the score-code type overridden, the warning is set, and the manifest
gains only the pickle and statistics files. -/
theorem prepareModel_nopkgs_nopymas (env : Env) (a : RegArgs)
    (hm : a.model = .estimator) (hpk : env.packages = none) (hpy : env.pymas = none) :
    prepareModel env a = .ok
      ({ env.baseDict with scoreCodeType := some ("ds2MultiType".data) },
       (if a.train || a.test || a.valid then statsFold (a.files ++ [pklEntry], a.name)
        else (a.files ++ [pklEntry], a.name)).2,
       (if a.train || a.test || a.valid then statsFold (a.files ++ [pklEntry], a.name)
        else (a.files ++ [pklEntry], a.name)).1,
       true) := by
  have hps : ∀ (rp : Bool) (d0 : ModelDict) (fs2 : List FileEntry),
      packageStep env rp d0 fs2 = .ok (d0, fs2) := by
    intro rp d0 fs2
    unfold packageStep
    rw [hpk]
    split <;> rfl
  simp only [prepareModel, hm, hps, hpy]

/-- Membership in a conditional one-or-two element trace. -/
theorem mem_ite_cons {α : Type _} (c : Prop) [Decidable c] (x y act : α)
    (h : act ∈ if c then [x, y] else [x]) : act = x ∨ act = y := by
  by_cases hc : c
  · rw [if_pos hc] at h
    simpa using h
  · rw [if_neg hc] at h
    exact .inl (by simpa using h)

/-- Every remote call `_create_project` issues is a project creation or a
project update. -/
theorem create_project_trace (appliesVars : Bool) (pn : Option PStr) (model : ModelDict)
    (iv ov : Option (List Variable)) (act : Action)
    (h : act ∈ (_create_project appliesVars pn model iv ov).1) :
    act = .createProject pn ∨ act = .updateProject pn := by
  simp only [_create_project] at h
  exact mem_ite_cons _ _ _ _ h

/-- Reduction of `register_model` to its `finish` phase once the project
check passes, the repository resolves and preparation succeeds. -/
theorem register_model_reduces (env : Env) (a : RegArgs) (r : PStr) (d : ModelDict)
    (nm : PStr) (fs : List FileEntry) (w : Bool)
    (hpass : a.force = true ∨ (projectLookup env a.project).isNone = false)
    (hrepo : resolveRepo env a.repository = .ok r)
    (hprep : prepareModel env a = .ok (d, nm, fs, w)) :
    register_model env a =
      ⟨projectLookupTrace a.project ++
        (finish env a (effectiveVersion a.version)
          ((projectLookup env a.project).isNone && a.force) d nm fs).1,
       w,
       (finish env a (effectiveVersion a.version)
          ((projectLookup env a.project).isNone && a.force) d nm fs).2⟩ := by
  have hcond : ((projectLookup env a.project).isNone
      && !((projectLookup env a.project).isNone && a.force)) = false := by
    rcases hpass with h | h
    · rw [h]; cases (projectLookup env a.project).isNone <;> rfl
    · rw [h]; rfl
  cases hM : a.model with
  | castable => simp [prepareModel, hM] at hprep
  | other => simp [prepareModel, hM] at hprep
  | mapping dd =>
    simp only [register_model]
    rw [hcond, hrepo, hM, hprep]
    rfl
  | estimator =>
    simp only [register_model]
    rw [hcond, hrepo, hM, hprep]
    rfl

/-- The finish phase with a non-`new` version and a missing model: only
the optional project creation and the failed lookup happen. -/
theorem finish_not_new_missing (env : Env) (a : RegArgs) (version : PStr) (cp : Bool)
    (d : ModelDict) (nm : PStr) (fs : List FileEntry)
    (hv : (pyLower version == "new".data) = false)
    (hnm : env.models.contains nm = false) :
    finish env a version cp d nm fs =
      ((if cp then (_create_project env.projectAppliesVars a.project d none none).1 else [])
        ++ [Action.getModel nm], .error .modelNotFound) := by
  have hnm' : nm ∉ env.models := by simpa using hnm
  simp [finish, hv, hnm']

/-- The finish phase with a non-`new` version and an existing model:
version creation, content deletion and the uploads. -/
theorem finish_not_new_found (env : Env) (a : RegArgs) (version : PStr) (cp : Bool)
    (d : ModelDict) (nm : PStr) (fs : List FileEntry)
    (hv : (pyLower version == "new".data) = false)
    (hnm : env.models.contains nm = true) :
    finish env a version cp d nm fs =
      ((if cp then (_create_project env.projectAppliesVars a.project d none none).1 else [])
        ++ [Action.getModel nm, Action.createModelVersion nm, Action.deleteModelContents]
        ++ fs.map Action.addModelContent,
       .ok (.versioned nm)) := by
  have hnm' : nm ∈ env.models := by simpa using hnm
  simp [finish, hv, hnm']

/-- The finish phase with version `new`: model creation and the uploads. -/
theorem finish_new (env : Env) (a : RegArgs) (version : PStr) (cp : Bool)
    (d : ModelDict) (nm : PStr) (fs : List FileEntry)
    (hv : (pyLower version == "new".data) = true) :
    finish env a version cp d nm fs =
      ((if cp then (_create_project env.projectAppliesVars a.project d none none).1 else [])
        ++ [Action.createModel d] ++ fs.map Action.addModelContent,
       .ok (.created d)) := by
  simp [finish, hv]

/-- The project lookup issues only a non-mutating read. -/
theorem projectLookupTrace_shape (project : Option PStr) (act : Action)
    (h : act ∈ projectLookupTrace project) : ∃ pr, act = .getProject pr := by
  cases project with
  | none => simp [projectLookupTrace] at h
  | some pr =>
    refine ⟨pr, ?_⟩
    simpa [projectLookupTrace] using h

/-- C3 (amended): with a version other than `new`, when neither the
caller-supplied name nor the shadowing statistics file name
`dmcas_roc.json` names an existing model, registration of a non-ASTORE
model fails with `ValueError`; no model creation, version creation,
content upload or deletion occurs — but when `force=True` and the
project did not exist, project creation (and possibly a project update)
happens before the failure. -/
theorem C3_missing_model_version (env : Env) (a : RegArgs) (v r : PStr)
    (d : ModelDict) (nm : PStr) (fs : List FileEntry) (w : Bool)
    (hver : a.version = some v) (hv0 : v.isEmpty = false)
    (hvnew : (pyLower v == "new".data) = false)
    (hpass : a.force = true ∨ (projectLookup env a.project).isNone = false)
    (hrepo : resolveRepo env a.repository = .ok r)
    (hprep : prepareModel env a = .ok (d, nm, fs, w))
    (hn1 : env.models.contains a.name = false)
    (hn2 : env.models.contains ("dmcas_roc.json".data) = false) :
    (register_model env a).result = .error .modelNotFound
  ∧ Err.isValueError .modelNotFound = true
  ∧ (∀ act ∈ (register_model env a).trace, act.isMutation = true →
      act = .createProject a.project ∨ act = .updateProject a.project) := by
  have hev : effectiveVersion a.version = v := by
    rw [hver]
    simp [effectiveVersion, hv0]
  have hnm : env.models.contains nm = false := by
    rcases prepareModel_name_cases env a d nm fs w hprep with h | h
    · rwa [h]
    · rwa [h]
  have hreg := register_model_reduces env a r d nm fs w hpass hrepo hprep
  rw [hreg]
  rw [hev, finish_not_new_missing env a v _ d nm fs hvnew hnm]
  refine ⟨rfl, rfl, ?_⟩
  intro act hact hmut
  simp only [List.mem_append] at hact
  rcases hact with hact | hact | hact
  · exfalso
    obtain ⟨pr2, rfl⟩ := projectLookupTrace_shape a.project act hact
    exact Bool.noConfusion hmut
  · by_cases hcp : ((projectLookup env a.project).isNone && a.force) = true
    · rw [hcp] at hact
      simp only [if_true] at hact
      exact create_project_trace _ _ _ _ _ _ hact
    · exfalso
      have hcp' : ((projectLookup env a.project).isNone && a.force) = false := by
        revert hcp; cases ((projectLookup env a.project).isNone && a.force) <;> simp
      rw [hcp'] at hact
      simp at hact
  · exfalso
    simp at hact
    rw [hact] at hmut
    exact Bool.noConfusion hmut

/-- C3 (counterexample): registering a metadata mapping with
`version='latest'`, `force=True` and a nonexistent project and model
raises `ValueError` as claimed, but a remote mutation — the creation of
the project — has already been performed, contradicting the claim that
no remote mutation occurs. -/
theorem C3_counterexample :
    (register_model envC3 argsC3).result = .error .modelNotFound
  ∧ Err.isValueError .modelNotFound = true
  ∧ Action.createProject (some ("proj".data)) ∈ (register_model envC3 argsC3).trace
  ∧ (Action.createProject (some ("proj".data))).isMutation = true := by
  refine ⟨rfl, rfl, ?_, rfl⟩
  decide

/-- Witness for C3 (amended) at the concrete input `envC3`/`argsC3`. -/
theorem C3_witness :
    (register_model envC3 argsC3).result = .error .modelNotFound
  ∧ Err.isValueError .modelNotFound = true := by
  have h := C3_missing_model_version envC3 argsC3 ("latest".data) ("Public".data)
    {} ("mymodel".data) [] false rfl rfl (by decide) (.inl rfl) rfl rfl (by decide) (by decide)
  exact ⟨h.1, h.2.1⟩

/-- C9: when PyMAS score-code generation fails (a `ValueError` from
`from_model_info`), registration of an estimator continues in degraded
mode: the warning is emitted, the model is still created — with the base
dictionary's declared input/output variables left untouched — and no
score-code file is uploaded. -/
theorem C9_scorecode_failure_recovery (env : Env) (a : RegArgs) (pr r : PStr)
    (hm : a.model = .estimator) (hpy : env.pymas = none) (hpk : env.packages = none)
    (hpr : a.project = some pr) (hprin : env.projects.contains pr = true)
    (hrepo : resolveRepo env a.repository = .ok r) (hver : a.version = none)
    (hfiles : ∀ f ∈ a.files, scoreNames.contains f.name = false) :
    (register_model env a).warned = true
  ∧ (register_model env a).result = .ok (.created
      { env.baseDict with scoreCodeType := some ("ds2MultiType".data) })
  ∧ ({ env.baseDict with scoreCodeType := some ("ds2MultiType".data) } : ModelDict).inputVariables
      = env.baseDict.inputVariables
  ∧ ({ env.baseDict with scoreCodeType := some ("ds2MultiType".data) } : ModelDict).outputVariables
      = env.baseDict.outputVariables
  ∧ (∀ f, Action.addModelContent f ∈ (register_model env a).trace →
      scoreNames.contains f.name = false) := by
  have hpl : projectLookup env a.project = some pr := by
    rw [hpr]
    show (if env.projects.contains pr = true then some pr else none) = some pr
    rw [hprin]
    rfl
  have hpass : a.force = true ∨ (projectLookup env a.project).isNone = false := by
    right; rw [hpl]; rfl
  have hprep := prepareModel_nopkgs_nopymas env a hm hpk hpy
  have hreg := register_model_reduces env a r _ _ _ _ hpass hrepo hprep
  rw [hreg]
  have hev : effectiveVersion a.version = "new".data := by rw [hver]; rfl
  rw [hev, finish_new env a _ _ _ _ _ (by decide)]
  have hcp : ((projectLookup env a.project).isNone && a.force) = false := by
    rw [hpl]; rfl
  rw [hcp]
  refine ⟨rfl, rfl, rfl, rfl, ?_⟩
  intro f hf
  rcases List.mem_append.mp hf with h1 | h2
  · obtain ⟨pr2, he⟩ := projectLookupTrace_shape a.project _ h1
    exact Action.noConfusion he
  · rcases List.mem_append.mp h2 with h3 | h4
    · rcases List.mem_append.mp h3 with h5 | h6
      · simp at h5
      · rw [List.mem_singleton] at h6
        exact Action.noConfusion h6
    · rw [List.mem_map] at h4
      obtain ⟨g, hg, hge⟩ := h4
      injection hge with hgf
      subst hgf
      by_cases hd : (a.train || a.test || a.valid) = true
      · rw [if_pos hd] at hg
        unfold statsFold at hg
        rcases foldl_addStat_mem statNames (a.files ++ [pklEntry], a.name) g hg
            with hg' | ⟨s, hs, rfl⟩
        · rcases List.mem_append.mp hg' with hg'' | hg''
          · exact hfiles g hg''
          · rw [List.mem_singleton] at hg''
            rw [hg'']
            decide
        · simp only [statNames, List.mem_cons, List.not_mem_nil, or_false] at hs
          rcases hs with rfl | rfl | rfl <;> decide
      · rw [if_neg hd] at hg
        rcases List.mem_append.mp hg with hg'' | hg''
        · exact hfiles g hg''
        · rw [List.mem_singleton] at hg''
          rw [hg'']
          decide

/-- Witness for C9 at the concrete input `envC9`/`argsC9`. -/
theorem C9_witness :
    (register_model envC9 argsC9).warned = true
  ∧ (register_model envC9 argsC9).result = .ok (.created dEst) := by
  have h := C9_scorecode_failure_recovery envC9 argsC9 ("proj".data) ("Public".data)
    rfl rfl rfl rfl (by decide) rfl rfl (by intro f hf; simp [argsC9] at hf)
  exact ⟨h.1, h.2.1⟩

/-- C10: for an estimator registration with a dataset supplied and a
version other than `new`, the statistics loop has rebound the local
`name` variable, so the model lookup — and, when that model exists, the
model-version creation — use the last statistics file name
`dmcas_roc.json` instead of the caller-supplied name; no lookup under any
other name happens. -/
theorem C10_stats_loop_shadows_name (env : Env) (a : RegArgs) (v r : PStr)
    (d : ModelDict) (nm : PStr) (fs : List FileEntry) (w : Bool)
    (hm : a.model = .estimator) (hdata : (a.train || a.test || a.valid) = true)
    (hver : a.version = some v) (hv0 : v.isEmpty = false)
    (hvnew : (pyLower v == "new".data) = false)
    (hpass : a.force = true ∨ (projectLookup env a.project).isNone = false)
    (hrepo : resolveRepo env a.repository = .ok r)
    (hprep : prepareModel env a = .ok (d, nm, fs, w)) :
    nm = "dmcas_roc.json".data
  ∧ Action.getModel ("dmcas_roc.json".data) ∈ (register_model env a).trace
  ∧ (∀ n, Action.getModel n ∈ (register_model env a).trace → n = "dmcas_roc.json".data)
  ∧ (env.models.contains ("dmcas_roc.json".data) = true →
      Action.createModelVersion ("dmcas_roc.json".data) ∈ (register_model env a).trace) := by
  have hroc := prepareModel_roc_name env a d nm fs w hm hdata hprep
  have hev : effectiveVersion a.version = v := by
    rw [hver]
    simp [effectiveVersion, hv0]
  have hreg := register_model_reduces env a r d nm fs w hpass hrepo hprep
  rw [hreg]
  rw [hev]
  subst hroc
  by_cases hc : env.models.contains ("dmcas_roc.json".data) = true
  · rw [finish_not_new_found env a v _ d _ fs hvnew hc]
    refine ⟨rfl, ?_, ?_, ?_⟩
    · simp
    · intro n hn
      simp only [List.mem_append] at hn
      rcases hn with hn | hn | hn
      · exfalso
        obtain ⟨pr2, he⟩ := projectLookupTrace_shape a.project _ hn
        exact Action.noConfusion he
      · rcases hn with hn' | hn'
        · exfalso
          by_cases hcp : ((projectLookup env a.project).isNone && a.force) = true
          · rw [hcp] at hn'
            simp only [if_true] at hn'
            rcases create_project_trace _ _ _ _ _ _ hn' with h' | h' <;> exact Action.noConfusion h'
          · have hcp' : ((projectLookup env a.project).isNone && a.force) = false := by
              revert hcp; cases ((projectLookup env a.project).isNone && a.force) <;> simp
            rw [hcp'] at hn'
            simp at hn'
        · simpa using hn'
      · exfalso
        simp only [List.mem_map] at hn
        obtain ⟨g, _, hge⟩ := hn
        exact Action.noConfusion hge
    · intro _
      simp
  · have hc' : env.models.contains ("dmcas_roc.json".data) = false := by
      revert hc; cases env.models.contains ("dmcas_roc.json".data) <;> simp
    rw [finish_not_new_missing env a v _ d _ fs hvnew hc']
    refine ⟨rfl, ?_, ?_, ?_⟩
    · simp
    · intro n hn
      simp only [List.mem_append] at hn
      rcases hn with hn | hn | hn
      · exfalso
        obtain ⟨pr2, he⟩ := projectLookupTrace_shape a.project _ hn
        exact Action.noConfusion he
      · exfalso
        by_cases hcp : ((projectLookup env a.project).isNone && a.force) = true
        · rw [hcp] at hn
          simp only [if_true] at hn
          rcases create_project_trace _ _ _ _ _ _ hn with h' | h' <;> exact Action.noConfusion h'
        · have hcp' : ((projectLookup env a.project).isNone && a.force) = false := by
            revert hcp; cases ((projectLookup env a.project).isNone && a.force) <;> simp
          rw [hcp'] at hn
          simp at hn
      · simpa using hn
    · intro hcc
      exact absurd hcc (by rw [hc']; simp)

/-- Witness for C10 at the concrete input `envC10`/`argsC10`: the lookup
and the version creation both use `dmcas_roc.json`, not the caller name
`mymodel`. -/
theorem C10_witness :
    Action.getModel ("dmcas_roc.json".data) ∈ (register_model envC10 argsC10).trace
  ∧ Action.createModelVersion ("dmcas_roc.json".data) ∈ (register_model envC10 argsC10).trace := by
  have h := C10_stats_loop_shadows_name envC10 argsC10 ("latest".data) ("Public".data)
    dEst ("dmcas_roc.json".data) fsC10 true rfl rfl rfl rfl (by decide) (.inr rfl) rfl rfl
  exact ⟨h.2.1, h.2.2.2 rfl⟩

end Sasctl
